import Mathlib

/-!
Shallow embedding of the visitor-management backend (Express + MySQL server,
src/Backend, server section of migration_update_schema.sql).

Modelling conventions:
- database tables are Lean lists of rows; AUTO_INCREMENT ids are explicit
  counters in the database state (freshness is the WF predicate below);
- SQL SELECT ... WHERE id = ? followed by rows[0] is List.find?;
- nullable SQL columns are Option; SQL equality on a nullable column is
  sqlEqOpt (NULL = x is never true);
- JavaScript string truthiness (absent or empty string is falsy) is truthy /
  truthyOpt;
- timestamps are Nat (seconds); MySQL DATE() truncation to the calendar day is
  dateOf (division by 86400); LIKE with wildcards on both sides is substring
  containment (binary collation);
- each handler is a pure function from the request and the database state to a
  response paired with the new database state; a transaction rollback is
  returning the unchanged input state; HTTP statuses are the literal numbers
  the handlers pass to res.status.
-/

/-- Row of the users table, with the columns the server reads
(name, email, password, role, company_name, is_verified). -/
structure User where
  id : Nat
  name : String
  email : String
  password : String
  role : String
  company_name : Option String
  is_verified : Bool
  deriving DecidableEq

/-- Row of the visitors table (after the migration dropped the unique index on
email, so duplicate emails are representable). -/
structure Visitor where
  id : Nat
  name : String
  email : String
  phone : Option String
  designation : Option String
  company : Option String
  companyTel : Option String
  website : Option String
  address : Option String
  photo : Option String
  idCardPhoto : Option String
  idCardNumber : String
  deriving DecidableEq

/-- Row of the visits table; check_out_time is NULL (none) while the visit is
active. -/
structure Visit where
  id : Nat
  visitor_id : Nat
  host_id : Nat
  reason : Option String
  itemsCarried : Option String
  check_in_time : Nat
  check_out_time : Option Nat
  deriving DecidableEq

/-- Database state: the three tables the handlers touch plus the AUTO_INCREMENT
counters of visitors and visits. -/
structure DB where
  users : List User
  visitors : List Visitor
  visits : List Visit
  nextVisitorId : Nat
  nextVisitId : Nat
  deriving DecidableEq

/-- The JWT payload the authentication middleware puts in req.user. -/
structure Auth where
  id : Nat
  role : String
  deriving DecidableEq

/-- Body of POST /api/visits. Required fields (checked for truthiness by the
handler) are plain strings, optional ones are Option. -/
structure CheckInBody where
  name : String
  email : String
  phone : Option String
  designation : Option String
  company : Option String
  companyTel : Option String
  website : Option String
  address : Option String
  hostName : String
  reason : Option String
  itemsCarried : Option String
  photo : Option String
  idCardPhoto : Option String
  idCardNumber : String
  deriving DecidableEq

/-- JavaScript truthiness of a string: empty is falsy. -/
def truthy (s : String) : Bool := !s.isEmpty

/-- JavaScript truthiness of a nullable string: absent and empty are falsy. -/
def truthyOpt : Option String → Bool
  | none => false
  | some s => !s.isEmpty

/-- SQL equality on nullable string columns: a comparison involving NULL is
never true. -/
def sqlEqOpt : Option String → Option String → Bool
  | some a, some b => a == b
  | _, _ => false

/-- SELECT ... FROM users WHERE id = ? followed by rows[0]. -/
def findUserById (db : DB) (uid : Nat) : Option User :=
  db.users.find? fun u => u.id == uid

/-- SELECT ... FROM visitors WHERE id = ? followed by rows[0] (models the JOIN
on visits.visitor_id). -/
def findVisitorById (db : DB) (vid : Nat) : Option Visitor :=
  db.visitors.find? fun v => v.id == vid

/-- SELECT ... FROM visits WHERE id = ? followed by rows[0]. -/
def findVisitById (db : DB) (vid : Nat) : Option Visit :=
  db.visits.find? fun v => v.id == vid

/-- Character-list helper for SQL LIKE: first list is a pattern-free needle
checked at the head of the second list. -/
def isPrefixChars : List Char → List Char → Bool
  | [], _ => true
  | _ :: _, [] => false
  | a :: as, b :: bs => a == b && isPrefixChars as bs

/-- Character-list substring containment. -/
def containsChars (pat : List Char) : List Char → Bool
  | [] => pat.isEmpty
  | b :: bs => isPrefixChars pat (b :: bs) || containsChars pat bs

/-- SQL column LIKE CONCAT of percent, pattern, percent: the pattern occurs as
a contiguous substring of the column value. -/
def likeContains (s pat : String) : Bool := containsChars pat.data s.data

/-- MySQL DATE() applied to a timestamp: the calendar day containing it
(timestamps are seconds, days are 86400 seconds). -/
def dateOf (t : Nat) : Nat := t / 86400

/-- JavaScript toLowerCase comparison of two strings, character by character
(s.toLowerCase() === t.toLowerCase()). -/
def lowerEqStr (s t : String) : Bool :=
  s.data.map Char.toLower == t.data.map Char.toLower

deriving instance DecidableEq for Except

/-- Result of POST /api/login: err carries the HTTP status, ok carries the
payload signed into the JWT (user id and role). -/
inductive LoginRes where
  | ok (id : Nat) (role : String)
  | err (status : Nat)
  deriving DecidableEq

/-- Handler of POST /api/login: look the user up by email, compare the
password in plaintext (401 on mismatch), reject unverified users unless their
role is host (403), otherwise issue the token. -/
def login (email password : String) (db : DB) : LoginRes :=
  match db.users.find? (fun u => u.email == email) with
  | none => .err 401
  | some user =>
    if user.password != password then .err 401
    else if user.role != "host" && !user.is_verified then .err 403
    else .ok user.id user.role

/-- Host-id resolution step of POST /api/visits. A host caller may only check
visitors in for themselves: the submitted hostName must match the caller name
case-insensitively (403 otherwise). An admin caller resolves hostName to a
role=host user of the admin company (404 when absent, 400 when the admin row
or its company_name is missing). Any other role is rejected with 403. -/
def resolveHostId (auth : Auth) (hostName : String) (db : DB) : Except Nat Nat :=
  if auth.role == "host" then
    match findUserById db auth.id with
    | none => .error 403
    | some u =>
      if !lowerEqStr u.name hostName then .error 403
      else .ok auth.id
  else if auth.role == "admin" then
    match findUserById db auth.id with
    | none => .error 400
    | some a =>
      if !truthyOpt a.company_name then .error 400
      else
        match (db.users.filter fun u =>
            u.name == hostName && u.role == "host" &&
            sqlEqOpt u.company_name a.company_name).head? with
        | none => .error 404
        | some h => .ok h.id
  else .error 403

/-- Predicate of the duplicate-check query of POST /api/visits: the visit is
open (check_out_time IS NULL), its visitor has the given email, and its host
belongs to the given company. -/
def isActiveFor (db : DB) (email : String) (hostCompany : Option String) (v : Visit) : Bool :=
  v.check_out_time == none &&
  (match findVisitorById db v.visitor_id with
   | some vis => vis.email == email
   | none => false) &&
  (match findUserById db v.host_id with
   | some h => sqlEqOpt h.company_name hostCompany
   | none => false)

/-- The duplicate-check query itself: does any visit satisfy isActiveFor. -/
def activeVisitExists (db : DB) (email : String) (hostCompany : Option String) : Bool :=
  db.visits.any (isActiveFor db email hostCompany)

/-- Number of open visits of a given visitor email within a given company. -/
def activeCount (db : DB) (email : String) (c : String) : Nat :=
  db.visits.countP (isActiveFor db email (some c))

/-- Invariant of the data model: per visitor email and company, at most one
open visit. -/
def OneActivePerCompany (db : DB) : Prop :=
  ∀ e c, activeCount db e c ≤ 1

/-- AUTO_INCREMENT well-formedness: stored ids are below the counters, and
every visit references a visitor id below the visitor counter. -/
def WF (db : DB) : Prop :=
  (∀ vis ∈ db.visitors, vis.id < db.nextVisitorId) ∧
  (∀ v ∈ db.visits, v.id < db.nextVisitId ∧ v.visitor_id < db.nextVisitorId)

/-- The visitor row INSERT of POST /api/visits builds from the request body. -/
def mkVisitor (vid : Nat) (b : CheckInBody) : Visitor :=
  { id := vid, name := b.name, email := b.email, phone := b.phone,
    designation := b.designation, company := b.company, companyTel := b.companyTel,
    website := b.website, address := b.address, photo := b.photo,
    idCardPhoto := b.idCardPhoto, idCardNumber := b.idCardNumber }

/-- The visit row INSERT of POST /api/visits builds: it references the freshly
inserted visitor, check_in_time is now, check_out_time starts NULL. -/
def mkVisit (vid visitor_id host_id : Nat) (b : CheckInBody) (now : Nat) : Visit :=
  { id := vid, visitor_id := visitor_id, host_id := host_id, reason := b.reason,
    itemsCarried := b.itemsCarried, check_in_time := now, check_out_time := none }

/-- Committed effect of a successful check-in: both INSERTs and the bumped
counters. -/
def insertCheckIn (db : DB) (b : CheckInBody) (host_id now : Nat) : DB :=
  { db with
    visitors := db.visitors ++ [mkVisitor db.nextVisitorId b],
    visits := db.visits ++ [mkVisit db.nextVisitId db.nextVisitorId host_id b now],
    nextVisitorId := db.nextVisitorId + 1,
    nextVisitId := db.nextVisitId + 1 }

/-- Result of POST /api/visits: err carries the HTTP status, created carries
the new visit id. -/
inductive CheckInRes where
  | err (status : Nat)
  | created (visitId : Nat)
  deriving DecidableEq

/-- Handler of POST /api/visits: validate required fields (400), resolve the
host, re-read the host row for its company_name (400 when missing), run the
duplicate-check query scoped to that company (409 on a hit), then insert the
new visitor and the new visit inside the transaction and commit. Every error
path rolls the transaction back, returning the unchanged state. -/
def checkIn (auth : Auth) (b : CheckInBody) (now : Nat) (db : DB) : CheckInRes × DB :=
  if !(truthy b.name && truthy b.email && truthy b.hostName && truthy b.idCardNumber) then
    (.err 400, db)
  else
    match resolveHostId auth b.hostName db with
    | .error code => (.err code, db)
    | .ok host_id =>
      match findUserById db host_id with
      | none => (.err 400, db)
      | some h =>
        if activeVisitExists db b.email h.company_name then
          (.err 409, db)
        else
          (.created db.nextVisitId, insertCheckIn db b host_id now)

/-- Result of PUT /api/visits/:id/checkout. -/
inductive CheckoutRes where
  | ok
  | err (status : Nat)
  deriving DecidableEq

/-- Row condition of the conditional UPDATE of the checkout handler:
id = vid AND check_out_time IS NULL. -/
def checkoutMatch (vid : Nat) (v : Visit) : Bool :=
  v.id == vid && v.check_out_time == none

/-- Row effect of the conditional UPDATE: matching rows get check_out_time set
to now, other rows are untouched. -/
def checkoutSet (vid now : Nat) (v : Visit) : Visit :=
  if checkoutMatch vid v then { v with check_out_time := some now } else v

/-- The conditional UPDATE of the checkout handler: SET check_out_time = now
WHERE id = vid AND check_out_time IS NULL; affectedRows above zero means
success, zero collapses already-checked-out and nonexistent to 404. -/
def checkoutUpdate (db : DB) (vid now : Nat) : CheckoutRes × DB :=
  let affected := db.visits.countP (checkoutMatch vid)
  let db2 : DB := { db with visits := db.visits.map (checkoutSet vid now) }
  if affected > 0 then (.ok, db2) else (.err 404, db2)

/-- Handler of PUT /api/visits/:id/checkout: a host caller must own the visit
(403 when the visit is unknown or owned by another host); then the conditional
UPDATE runs for every caller, with no company or ownership condition for
non-host callers. -/
def checkout (auth : Auth) (vid now : Nat) (db : DB) : CheckoutRes × DB :=
  if auth.role == "host" then
    match findVisitById db vid with
    | none => (.err 403, db)
    | some v =>
      if v.host_id != auth.id then (.err 403, db)
      else checkoutUpdate db vid now
  else checkoutUpdate db vid now

/-- Row shape of the visit-listing JOIN across visits, visitors and users. -/
abbrev JoinedRow := Visit × Visitor × User

/-- Inner JOIN of one visit with its visitor and host rows; none when either
referenced row is absent (the JOIN drops the visit). -/
def joinRow (db : DB) (v : Visit) : Option JoinedRow :=
  match findVisitorById db v.visitor_id, findUserById db v.host_id with
  | some vis, some h => some (v, vis, h)
  | _, _ => none

/-- ORDER BY check_in_time DESC as a relation on joined rows. -/
def visitDesc (a b : JoinedRow) : Prop :=
  b.1.check_in_time ≤ a.1.check_in_time

instance : DecidableRel visitDesc :=
  fun a b => Nat.decLe b.1.check_in_time a.1.check_in_time

instance : IsTotal JoinedRow visitDesc :=
  ⟨fun a b => Nat.le_total b.1.check_in_time a.1.check_in_time⟩

instance : IsTrans JoinedRow visitDesc :=
  ⟨fun _ _ _ h1 h2 => Nat.le_trans h2 h1⟩

/-- Optional query parameters of GET /api/visits; none models an absent (or
falsy) parameter, for which the handler adds no condition. -/
structure VisitQuery where
  hostId : Option Nat
  startDate : Option Nat
  endDate : Option Nat
  hostName : Option String
  visitorName : Option String
  deriving DecidableEq

/-- WHERE clause of the admin visit listing: the host company equals the admin
company, and each supplied optional filter adds one conjunct — exact host id,
inclusive calendar-date bounds on check_in_time, host-name substring,
visitor-name substring. -/
def adminRowPred (company : String) (q : VisitQuery) (r : JoinedRow) : Bool :=
  sqlEqOpt r.2.2.company_name (some company) &&
  (match q.hostId with
   | none => true
   | some hid => r.1.host_id == hid) &&
  (match q.startDate with
   | none => true
   | some d => decide (d ≤ dateOf r.1.check_in_time)) &&
  (match q.endDate with
   | none => true
   | some d => decide (dateOf r.1.check_in_time ≤ d)) &&
  (match q.hostName with
   | none => true
   | some p => likeContains r.2.2.name p) &&
  (match q.visitorName with
   | none => true
   | some p => likeContains r.2.1.name p)

/-- Handler of GET /api/visits (admin only, 403 otherwise): read the admin row
for its company_name (400 when missing or empty), then return the JOIN rows
passing adminRowPred, ordered by check_in_time descending. -/
def getVisits (auth : Auth) (q : VisitQuery) (db : DB) : Except Nat (List JoinedRow) :=
  if auth.role != "admin" then .error 403
  else
    match findUserById db auth.id with
    | none => .error 400
    | some a =>
      if !truthyOpt a.company_name then .error 400
      else
        let company := a.company_name.getD ""
        let rows := (db.visits.filterMap (joinRow db)).filter (adminRowPred company q)
        .ok (rows.insertionSort visitDesc)

/-- Handler of GET /api/host-visits (host only, 403 otherwise): the JOIN rows
whose host_id is the caller id, no other filter, ordered by check_in_time
descending. -/
def getHostVisits (auth : Auth) (db : DB) : Except Nat (List JoinedRow) :=
  if auth.role != "host" then .error 403
  else
    let rows := (db.visits.filterMap (joinRow db)).filter fun r => r.1.host_id == auth.id
    .ok (rows.insertionSort visitDesc)

/-! Concrete fixture states used by the witness theorems: an admin and a host
of company Acme, a host of company Beta, and one check-in of a visitor. -/

/-- Fixture admin user of company Acme. -/
def wAnn : User :=
  { id := 1, name := "Ann", email := "ann@acme.com", password := "pw", role := "admin",
    company_name := some "Acme", is_verified := true }

/-- Fixture host user of company Acme. -/
def wBob : User :=
  { id := 2, name := "Bob", email := "bob@acme.com", password := "pw", role := "host",
    company_name := some "Acme", is_verified := false }

/-- Fixture host user of company Beta. -/
def wCara : User :=
  { id := 3, name := "Cara", email := "cara@beta.com", password := "pw", role := "host",
    company_name := some "Beta", is_verified := false }

/-- Fixture unverified admin of company Gamma. -/
def wDan : User :=
  { id := 4, name := "Dan", email := "dan@gamma.com", password := "pw", role := "admin",
    company_name := some "Gamma", is_verified := false }

/-- Fixture database before any visit. -/
def wDb0 : DB :=
  { users := [wAnn, wBob, wCara, wDan], visitors := [], visits := [],
    nextVisitorId := 1, nextVisitId := 1 }

/-- Fixture check-in request for visitor Alice hosted by Bob. -/
def wBody : CheckInBody :=
  { name := "Alice", email := "alice@x.com", phone := none, designation := none,
    company := none, companyTel := none, website := none, address := none,
    hostName := "Bob", reason := some "meeting", itemsCarried := none, photo := none,
    idCardPhoto := none, idCardNumber := "ID1" }

/-- Fixture JWT payload of the Acme admin. -/
def wAuthAnn : Auth := { id := 1, role := "admin" }

/-- Fixture JWT payload of the Acme host. -/
def wAuthBob : Auth := { id := 2, role := "host" }

/-- Fixture JWT payload of the Beta host. -/
def wAuthCara : Auth := { id := 3, role := "host" }

/-- Fixture database after Alice checked in to Acme (hosted by Bob). -/
def wDb1 : DB := (checkIn wAuthAnn wBody 100 wDb0).2

/-- Fixture query with no optional filter supplied. -/
def wQEmpty : VisitQuery :=
  { hostId := none, startDate := none, endDate := none, hostName := none, visitorName := none }

/-- Fixture database after the Acme visit was checked out. -/
def wDb2 : DB := (checkout wAuthAnn 1 300 wDb1).2

/-- Fixture check-in request addressed to the Beta host (written in lower
case, matched case-insensitively). -/
def wBodyCara : CheckInBody := { wBody with hostName := "cara" }

/-- Fixture joined row of the Acme visit. -/
def wRow : JoinedRow := (mkVisit 1 1 2 wBody 100, mkVisitor 1 wBody, wBob)

/-! Helper lemmas shared by the claim theorems. -/

/-- Case analysis of the check-in handler: every run either is an error that
leaves the state unchanged (rollback) or went through host resolution, the
company lookup and a negative duplicate check and committed both inserts. -/
theorem checkIn_cases (auth : Auth) (b : CheckInBody) (now : Nat) (db : DB)
    (r : CheckInRes) (db2 : DB) (h : checkIn auth b now db = (r, db2)) :
    ((∃ code, r = CheckInRes.err code) ∧ db2 = db) ∨
    (∃ hid h0, resolveHostId auth b.hostName db = Except.ok hid ∧
      findUserById db hid = some h0 ∧
      activeVisitExists db b.email h0.company_name = false ∧
      r = CheckInRes.created db.nextVisitId ∧ db2 = insertCheckIn db b hid now) := by
  unfold checkIn at h
  split at h
  · cases h
    exact Or.inl ⟨⟨400, rfl⟩, rfl⟩
  · cases hres : resolveHostId auth b.hostName db with
    | error code =>
      simp only [hres] at h
      cases h
      exact Or.inl ⟨⟨code, rfl⟩, rfl⟩
    | ok hid =>
      simp only [hres] at h
      cases hu : findUserById db hid with
      | none =>
        simp only [hu] at h
        cases h
        exact Or.inl ⟨⟨400, rfl⟩, rfl⟩
      | some h0 =>
        simp only [hu] at h
        by_cases hex : activeVisitExists db b.email h0.company_name = true
        · rw [if_pos hex] at h
          cases h
          exact Or.inl ⟨⟨409, rfl⟩, rfl⟩
        · rw [if_neg hex] at h
          cases h
          exact Or.inr ⟨hid, h0, rfl, hu, Bool.eq_false_iff.mpr hex, rfl, rfl⟩

/-- Forward evaluation of the check-in handler on the success path. -/
theorem checkIn_success_eq (auth : Auth) (b : CheckInBody) (now : Nat) (db : DB)
    (hid : Nat) (h0 : User)
    (hval : (truthy b.name && truthy b.email && truthy b.hostName && truthy b.idCardNumber) = true)
    (hres : resolveHostId auth b.hostName db = Except.ok hid)
    (hu : findUserById db hid = some h0)
    (hex : activeVisitExists db b.email h0.company_name = false) :
    checkIn auth b now db =
      (CheckInRes.created db.nextVisitId, insertCheckIn db b hid now) := by
  unfold checkIn
  rw [hval]
  simp only [Bool.not_true, Bool.false_eq_true, if_false]
  simp [hres, hu, hex]

/-- Forward evaluation of the check-in handler on the conflict path. -/
theorem checkIn_conflict_eq (auth : Auth) (b : CheckInBody) (now : Nat) (db : DB)
    (hid : Nat) (h0 : User)
    (hval : (truthy b.name && truthy b.email && truthy b.hostName && truthy b.idCardNumber) = true)
    (hres : resolveHostId auth b.hostName db = Except.ok hid)
    (hu : findUserById db hid = some h0)
    (hex : activeVisitExists db b.email h0.company_name = true) :
    checkIn auth b now db = (CheckInRes.err 409, db) := by
  unfold checkIn
  rw [hval]
  simp only [Bool.not_true, Bool.false_eq_true, if_false]
  simp [hres, hu, hex]

/-- The committed insert does not touch the users table. -/
theorem findUserById_insertCheckIn (db : DB) (b : CheckInBody) (hid now uid : Nat) :
    findUserById (insertCheckIn db b hid now) uid = findUserById db uid := rfl

/-- Visitor lookup of an id below the old counter is unchanged by the insert. -/
theorem findVisitorById_insertCheckIn_lt (db : DB) (b : CheckInBody) (hid now vid : Nat)
    (h : vid < db.nextVisitorId) :
    findVisitorById (insertCheckIn db b hid now) vid = findVisitorById db vid := by
  unfold findVisitorById insertCheckIn
  simp only
  rw [List.find?_append]
  have hne : ((mkVisitor db.nextVisitorId b).id == vid) = false := by
    simp only [mkVisitor, beq_eq_false_iff_ne, ne_eq]
    omega
  simp [hne]

/-- The fresh visitor id resolves to the freshly inserted visitor row. -/
theorem findVisitorById_insertCheckIn_self (db : DB) (b : CheckInBody) (hid now : Nat)
    (hwf : ∀ vis ∈ db.visitors, vis.id < db.nextVisitorId) :
    findVisitorById (insertCheckIn db b hid now) db.nextVisitorId =
      some (mkVisitor db.nextVisitorId b) := by
  unfold findVisitorById insertCheckIn
  simp only
  rw [List.find?_append]
  have h1 : db.visitors.find? (fun v => v.id == db.nextVisitorId) = none := by
    rw [List.find?_eq_none]
    intro x hx
    have := hwf x hx
    simp only [beq_iff_eq]
    omega
  simp [h1, mkVisitor]

/-- Old visits keep their duplicate-check status across the insert. -/
theorem isActiveFor_insertCheckIn_old (db : DB) (b : CheckInBody) (hid now : Nat)
    (e : String) (co : Option String) (v : Visit)
    (hwf : WF db) (hv : v ∈ db.visits) :
    isActiveFor (insertCheckIn db b hid now) e co v = isActiveFor db e co v := by
  unfold isActiveFor
  rw [findUserById_insertCheckIn]
  rw [findVisitorById_insertCheckIn_lt db b hid now v.visitor_id ((hwf.2 v hv).2)]

/-- Duplicate-check status of the freshly inserted visit: its visitor is the
fresh row carrying the submitted email, its host is the resolved host. -/
theorem isActiveFor_insertCheckIn_new (db : DB) (b : CheckInBody) (hid now : Nat)
    (e : String) (co : Option String) (h0 : User)
    (hwf : ∀ vis ∈ db.visitors, vis.id < db.nextVisitorId)
    (hu : findUserById db hid = some h0) :
    isActiveFor (insertCheckIn db b hid now) e co
        (mkVisit db.nextVisitId db.nextVisitorId hid b now) =
      ((b.email == e) && sqlEqOpt h0.company_name co) := by
  unfold isActiveFor
  rw [findUserById_insertCheckIn]
  rw [show (mkVisit db.nextVisitId db.nextVisitorId hid b now).visitor_id = db.nextVisitorId from rfl]
  rw [findVisitorById_insertCheckIn_self db b hid now hwf]
  rw [show (mkVisit db.nextVisitId db.nextVisitorId hid b now).host_id = hid from rfl]
  rw [hu]
  show ((none == none && ((mkVisitor db.nextVisitorId b).email == e)) &&
      sqlEqOpt h0.company_name co) = (b.email == e && sqlEqOpt h0.company_name co)
  rw [show (mkVisitor db.nextVisitorId b).email = b.email from rfl]
  simp

/-- Per-pair count of open visits after a committed check-in: the old count
plus one exactly for the submitted email at the resolved host company. -/
theorem activeCount_insertCheckIn (db : DB) (b : CheckInBody) (hid now : Nat)
    (e c : String) (h0 : User)
    (hwf : WF db) (hu : findUserById db hid = some h0) :
    activeCount (insertCheckIn db b hid now) e c =
      activeCount db e c +
        (if (b.email == e) && sqlEqOpt h0.company_name (some c) then 1 else 0) := by
  unfold activeCount
  rw [show (insertCheckIn db b hid now).visits =
      db.visits ++ [mkVisit db.nextVisitId db.nextVisitorId hid b now] from rfl]
  rw [List.countP_append]
  congr 1
  · apply List.countP_congr
    intro v hv
    rw [isActiveFor_insertCheckIn_old db b hid now e (some c) v hwf hv]
  · rw [List.countP_cons, List.countP_nil]
    rw [isActiveFor_insertCheckIn_new db b hid now e (some c) h0 hwf.1 hu]
    simp

/-- A negative duplicate check means a zero count for that email and company. -/
theorem activeCount_eq_zero_of_not_exists (db : DB) (e c : String)
    (h : activeVisitExists db e (some c) = false) :
    activeCount db e c = 0 := by
  unfold activeVisitExists at h
  unfold activeCount
  rw [List.countP_eq_zero]
  intro v hv
  rw [List.any_eq_false] at h
  exact h v hv

/-- Every checkout run leaves the state unchanged or rewrites the visits table
pointwise through the conditional UPDATE. -/
theorem checkout_state_cases (auth : Auth) (vid now : Nat) (db : DB)
    (r : CheckoutRes) (db2 : DB) (h : checkout auth vid now db = (r, db2)) :
    db2 = db ∨ db2 = { db with visits := db.visits.map (checkoutSet vid now) } := by
  have hupd : ∀ r2 : CheckoutRes, checkoutUpdate db vid now = (r2, db2) →
      db2 = { db with visits := db.visits.map (checkoutSet vid now) } := by
    intro r2 h2
    unfold checkoutUpdate at h2
    dsimp only at h2
    split at h2
    · cases h2
      rfl
    · cases h2
      rfl
  unfold checkout at h
  split at h
  · cases hf : findVisitById db vid with
    | none =>
      simp only [hf] at h
      cases h
      exact Or.inl rfl
    | some v =>
      simp only [hf] at h
      split at h
      · cases h
        exact Or.inl rfl
      · exact Or.inr (hupd r h)
  · exact Or.inr (hupd r h)

/-- The checkout handler also preserves the one-active-visit-per-company
invariant: it only ever clears active visits. -/
theorem checkout_preserves_oneActive (auth : Auth) (vid now : Nat) (db : DB)
    (r : CheckoutRes) (db2 : DB) (h : checkout auth vid now db = (r, db2))
    (hinv : OneActivePerCompany db) : OneActivePerCompany db2 := by
  rcases checkout_state_cases auth vid now db r db2 h with hdb | hdb
  · rw [hdb]
    exact hinv
  · rw [hdb]
    intro e c
    have hle : activeCount { db with visits := db.visits.map (checkoutSet vid now) } e c ≤
        activeCount db e c := by
      unfold activeCount
      show (db.visits.map (checkoutSet vid now)).countP
          (isActiveFor { db with visits := db.visits.map (checkoutSet vid now) } e (some c)) ≤
        db.visits.countP (isActiveFor db e (some c))
      have hsame : isActiveFor { db with visits := db.visits.map (checkoutSet vid now) } e
          (some c) = isActiveFor db e (some c) := rfl
      rw [hsame, List.countP_map]
      apply List.countP_mono_left
      intro v _ hp
      simp only [Function.comp_apply] at hp
      unfold checkoutSet at hp
      by_cases hm : checkoutMatch vid v = true
      · rw [if_pos hm] at hp
        unfold isActiveFor at hp
        simp at hp
      · rw [if_neg hm] at hp
        exact hp
    exact Nat.le_trans hle (hinv e c)

/-- C1: in a well-formed state satisfying the one-active-visit-per-company
invariant, any run of the check-in handler yields a state still satisfying it;
moreover whenever the handler reaches the duplicate check (validation passed,
host resolved, host row found) and an active visit of the submitted email
exists at the host company, it answers Conflict 409 and inserts nothing; the
only other handler mutating visits, checkout, preserves the invariant as well,
so it holds in every reachable state. -/
theorem checkIn_preserves_invariant (auth : Auth) (b : CheckInBody) (now : Nat)
    (db : DB) (r : CheckInRes) (db2 : DB)
    (hwf : WF db) (hinv : OneActivePerCompany db)
    (h : checkIn auth b now db = (r, db2)) :
    OneActivePerCompany db2 ∧
    (∀ hid h0,
      (truthy b.name && truthy b.email && truthy b.hostName && truthy b.idCardNumber) = true →
      resolveHostId auth b.hostName db = Except.ok hid →
      findUserById db hid = some h0 →
      activeVisitExists db b.email h0.company_name = true →
      r = CheckInRes.err 409 ∧ db2 = db) ∧
    (∀ (auth2 : Auth) (vid t : Nat) (r2 : CheckoutRes) (db3 : DB),
      checkout auth2 vid t db = (r2, db3) → OneActivePerCompany db3) := by
  refine ⟨?_, ?_, ?_⟩
  · rcases checkIn_cases auth b now db r db2 h with ⟨_, hdb⟩ | ⟨hid, h0, _, hu, hex, _, hdb⟩
    · rw [hdb]
      exact hinv
    · rw [hdb]
      intro e c
      rw [activeCount_insertCheckIn db b hid now e c h0 hwf hu]
      by_cases hcase : ((b.email == e) && sqlEqOpt h0.company_name (some c)) = true
      · rw [hcase, if_pos rfl]
        have he : b.email = e := by
          have := (Bool.and_eq_true _ _).mp hcase
          exact beq_iff_eq.mp this.1
        have hc : h0.company_name = some c := by
          have h2 := ((Bool.and_eq_true _ _).mp hcase).2
          cases hco : h0.company_name with
          | none => rw [hco] at h2; simp [sqlEqOpt] at h2
          | some c2 =>
            rw [hco] at h2
            simp only [sqlEqOpt, beq_iff_eq] at h2
            rw [h2]
        rw [he, hc] at hex
        rw [activeCount_eq_zero_of_not_exists db e c hex]
      · rw [Bool.eq_false_iff.mpr hcase]
        simp only [Bool.false_eq_true, if_false, Nat.add_zero]
        exact hinv e c
  · intro hid h0 hval hres hu hex
    have := checkIn_conflict_eq auth b now db hid h0 hval hres hu hex
    rw [this] at h
    exact ⟨(Prod.mk.injEq _ _ _ _ ▸ h.symm).1, (Prod.mk.injEq _ _ _ _ ▸ h.symm).2⟩
  · intro auth2 vid t r2 db3 h2
    exact checkout_preserves_oneActive auth2 vid t db r2 db3 h2 hinv

/-- Witness for C1: the check-in of Alice to Acme on the empty fixture state
preserves the invariant. -/
theorem checkIn_preserves_invariant_witness : OneActivePerCompany wDb1 :=
  (checkIn_preserves_invariant wAuthAnn wBody 100 wDb0 (checkIn wAuthAnn wBody 100 wDb0).1 wDb1
    (by constructor
        · intro vis hvis
          simp [wDb0] at hvis
        · intro v hv
          simp [wDb0] at hv)
    (fun _ _ => Nat.zero_le 1)
    rfl).1

/-- The update preserves row ids. -/
theorem checkoutSet_id (vid now : Nat) (v : Visit) :
    (checkoutSet vid now v).id = v.id := by
  unfold checkoutSet
  split <;> rfl

/-- The update preserves host ids. -/
theorem checkoutSet_host_id (vid now : Nat) (v : Visit) :
    (checkoutSet vid now v).host_id = v.host_id := by
  unfold checkoutSet
  split <;> rfl

/-- An updated row never matches the update condition again. -/
theorem checkoutMatch_set_false (vid now : Nat) (v : Visit) :
    checkoutMatch vid (checkoutSet vid now v) = false := by
  unfold checkoutSet
  by_cases h : checkoutMatch vid v = true
  · rw [if_pos h]
    unfold checkoutMatch
    simp
  · rw [if_neg h]
    exact Bool.eq_false_iff.mpr h

/-- After the update ran, no row matches the update condition. -/
theorem countP_checkoutMatch_map_zero (vid now : Nat) (l : List Visit) :
    (l.map (checkoutSet vid now)).countP (checkoutMatch vid) = 0 := by
  rw [List.countP_map]
  rw [List.countP_eq_zero]
  intro v _
  simp only [Function.comp_apply, checkoutMatch_set_false]
  simp

/-- When no row matches, the conditional UPDATE reports 404 and the state is
unchanged. -/
theorem checkoutUpdate_no_match (db : DB) (vid now : Nat)
    (h : db.visits.countP (checkoutMatch vid) = 0) :
    checkoutUpdate db vid now = (CheckoutRes.err 404, db) := by
  have hall := List.countP_eq_zero.mp h
  have hmap : db.visits.map (checkoutSet vid now) = db.visits := by
    have h2 : db.visits.map (checkoutSet vid now) = db.visits.map id := by
      apply List.map_congr_left
      intro v hv
      unfold checkoutSet
      rw [if_neg (hall v hv)]
      rfl
    rw [h2, List.map_id]
  unfold checkoutUpdate
  rw [h, hmap]
  simp

/-- When some row matches, the conditional UPDATE succeeds and rewrites the
visits table pointwise. -/
theorem checkoutUpdate_hit (db : DB) (vid now : Nat)
    (h : 0 < db.visits.countP (checkoutMatch vid)) :
    checkoutUpdate db vid now =
      (CheckoutRes.ok, { db with visits := db.visits.map (checkoutSet vid now) }) := by
  unfold checkoutUpdate
  simp [h]

/-- Visit lookup after the update is the updated result of the old lookup. -/
theorem findVisitById_after_update (db : DB) (vid now : Nat) :
    findVisitById { db with visits := db.visits.map (checkoutSet vid now) } vid =
      (findVisitById db vid).map (checkoutSet vid now) := by
  unfold findVisitById
  simp only
  rw [List.find?_map]
  have hfun : ((fun v : Visit => v.id == vid) ∘ checkoutSet vid now) =
      (fun v : Visit => v.id == vid) := by
    funext v
    simp only [Function.comp_apply, checkoutSet_id]
  rw [hfun]

/-- C2: the check-in handler is atomic: every error response leaves the state
exactly as it was (full rollback), and every created response committed
exactly one new Visitor row and one new Visit row referencing it, both built
from the submitted fields. -/
theorem checkIn_atomic (auth : Auth) (b : CheckInBody) (now : Nat) (db : DB)
    (r : CheckInRes) (db2 : DB) (h : checkIn auth b now db = (r, db2)) :
    (∀ code, r = CheckInRes.err code → db2 = db) ∧
    (∀ vid, r = CheckInRes.created vid →
      ∃ hid,
        db2.visitors = db.visitors ++ [mkVisitor db.nextVisitorId b] ∧
        db2.visits = db.visits ++ [mkVisit db.nextVisitId db.nextVisitorId hid b now] ∧
        (mkVisit db.nextVisitId db.nextVisitorId hid b now).visitor_id =
          (mkVisitor db.nextVisitorId b).id ∧
        vid = db.nextVisitId) := by
  rcases checkIn_cases auth b now db r db2 h with ⟨⟨code0, hr⟩, hdb⟩ | ⟨hid, h0, _, _, _, hr, hdb⟩
  · constructor
    · intro _ _
      exact hdb
    · intro vid hc
      rw [hr] at hc
      exact CheckInRes.noConfusion hc
  · constructor
    · intro code hc
      rw [hr] at hc
      exact CheckInRes.noConfusion hc
    · intro vid hc
      refine ⟨hid, by rw [hdb]; rfl, by rw [hdb]; rfl, rfl, ?_⟩
      rw [hr] at hc
      exact (CheckInRes.created.inj hc).symm

/-- Witness for C2: the fixture check-in commits exactly the new visitor row
and the new visit row referencing it. -/
theorem checkIn_atomic_witness :
    wDb1.visitors = wDb0.visitors ++ [mkVisitor wDb0.nextVisitorId wBody] := by
  obtain ⟨hid, h1, _, _, _⟩ :=
    (checkIn_atomic wAuthAnn wBody 100 wDb0 (CheckInRes.created 1) wDb1 (by decide)).2 1 rfl
  exact h1

/-- C4: a host caller attempting checkout of a visit owned by another host is
rejected with 403 and the state, in particular the visit check_out_time, is
unchanged. -/
theorem checkout_host_forbidden (auth : Auth) (vid now : Nat) (db : DB) (v : Visit)
    (hrole : auth.role = "host") (hv : findVisitById db vid = some v)
    (hne : v.host_id ≠ auth.id) :
    checkout auth vid now db = (CheckoutRes.err 403, db) := by
  unfold checkout
  have h1 : (auth.role == "host") = true := by rw [hrole]; rfl
  rw [if_pos h1]
  simp only [hv]
  have h2 : (v.host_id != auth.id) = true := by simp [hne]
  rw [if_pos h2]

/-- Witness for C4: the Beta host cannot check out the Acme visit. -/
theorem checkout_host_forbidden_witness :
    checkout wAuthCara 1 300 wDb1 = (CheckoutRes.err 403, wDb1) :=
  checkout_host_forbidden wAuthCara 1 300 wDb1 (mkVisit 1 1 2 wBody 100)
    rfl (by decide) (by decide)

/-- C9: an admin caller checks out any existing active visit with no company
or ownership condition, in particular a visit whose host belongs to a company
other than the admin one: the update succeeds and sets check_out_time. -/
theorem checkout_admin_any_company (auth : Auth) (vid now : Nat) (db : DB)
    (v : Visit) (adminU h0 : User)
    (hrole : auth.role = "admin")
    (hv : findVisitById db vid = some v)
    (hactive : v.check_out_time = none)
    (hhost : findUserById db v.host_id = some h0)
    (hadmin : findUserById db auth.id = some adminU)
    (hdiff : h0.company_name ≠ adminU.company_name) :
    (checkout auth vid now db).1 = CheckoutRes.ok ∧
    findVisitById (checkout auth vid now db).2 vid =
      some { v with check_out_time := some now } := by
  have h1 : (auth.role == "host") = false := by rw [hrole]; rfl
  have hmem : v ∈ db.visits := List.mem_of_find?_eq_some hv
  have hmatch : checkoutMatch vid v = true := by
    unfold checkoutMatch
    have := List.find?_some hv
    rw [this, hactive]
    rfl
  have hpos : 0 < db.visits.countP (checkoutMatch vid) :=
    List.countP_pos_iff.mpr ⟨v, hmem, hmatch⟩
  have hset : checkoutSet vid now v = { v with check_out_time := some now } := by
    unfold checkoutSet
    rw [if_pos hmatch]
  unfold checkout
  rw [h1]
  simp only [Bool.false_eq_true, if_false]
  rw [checkoutUpdate_hit db vid now hpos]
  constructor
  · rfl
  · rw [findVisitById_after_update, hv]
    show some (checkoutSet vid now v) = some { v with check_out_time := some now }
    rw [hset]

/-- Witness for C9: the Gamma admin checks out the Acme visit. -/
theorem checkout_admin_any_company_witness :
    (checkout { id := 4, role := "admin" } 1 300 wDb1).1 = CheckoutRes.ok ∧
    findVisitById (checkout { id := 4, role := "admin" } 1 300 wDb1).2 1 =
      some { mkVisit 1 1 2 wBody 100 with check_out_time := some 300 } :=
  checkout_admin_any_company { id := 4, role := "admin" } 1 300 wDb1
    (mkVisit 1 1 2 wBody 100) wDan wBob rfl (by decide) rfl (by decide) (by decide) (by decide)

/-- A successful conditional UPDATE leaves exactly the pointwise-updated
visits table. -/
theorem checkoutUpdate_ok_inv (db : DB) (vid t : Nat) (db1 : DB)
    (h : checkoutUpdate db vid t = (CheckoutRes.ok, db1)) :
    db1 = { db with visits := db.visits.map (checkoutSet vid t) } := by
  unfold checkoutUpdate at h
  dsimp only at h
  split at h
  · cases h
    rfl
  · injection h with ha _
    exact CheckoutRes.noConfusion ha

/-- C3: checkout is idempotent in effect: after a successful checkout of a
visit, a second checkout of the same visit matches zero rows, changes nothing
(the set check_out_time stays as it was) and answers 404, the same
NotFound-style response the conditional UPDATE gives for a visit id that does
not exist (shown for a caller that reaches the update). -/
theorem checkout_idempotent :
    (∀ (auth : Auth) (vid t1 t2 : Nat) (db db1 : DB),
      checkout auth vid t1 db = (CheckoutRes.ok, db1) →
      checkout auth vid t2 db1 = (CheckoutRes.err 404, db1)) ∧
    (∀ (auth : Auth) (vid t : Nat) (db : DB),
      auth.role = "admin" → (∀ v ∈ db.visits, v.id ≠ vid) →
      checkout auth vid t db = (CheckoutRes.err 404, db)) := by
  constructor
  · intro auth vid t1 t2 db db1 h
    unfold checkout at h
    by_cases hrole : (auth.role == "host") = true
    · rw [if_pos hrole] at h
      cases hf : findVisitById db vid with
      | none =>
        simp only [hf] at h
        exact absurd h (by simp)
      | some v =>
        simp only [hf] at h
        by_cases hown : (v.host_id != auth.id) = true
        · rw [if_pos hown] at h
          exact absurd h (by simp)
        · rw [if_neg hown] at h
          have hdb1 : db1 = { db with visits := db.visits.map (checkoutSet vid t1) } :=
            checkoutUpdate_ok_inv db vid t1 db1 h
          unfold checkout
          rw [if_pos hrole]
          have hf2 : findVisitById db1 vid = some (checkoutSet vid t1 v) := by
            rw [hdb1, findVisitById_after_update, hf]
            rfl
          simp only [hf2]
          have hown2 : ¬((checkoutSet vid t1 v).host_id != auth.id) = true := by
            rw [checkoutSet_host_id]
            exact hown
          rw [if_neg hown2]
          apply checkoutUpdate_no_match
          rw [hdb1]
          exact countP_checkoutMatch_map_zero vid t1 db.visits
    · rw [if_neg hrole] at h
      have hdb1 : db1 = { db with visits := db.visits.map (checkoutSet vid t1) } :=
        checkoutUpdate_ok_inv db vid t1 db1 h
      unfold checkout
      rw [if_neg hrole]
      apply checkoutUpdate_no_match
      rw [hdb1]
      exact countP_checkoutMatch_map_zero vid t1 db.visits
  · intro auth vid t db hrole hnone
    have h1 : (auth.role == "host") = false := by rw [hrole]; rfl
    unfold checkout
    rw [h1]
    simp only [Bool.false_eq_true, if_false]
    apply checkoutUpdate_no_match
    rw [List.countP_eq_zero]
    intro v hv hcon
    have hand := (Bool.and_eq_true _ _).mp hcon
    exact hnone v hv (beq_iff_eq.mp hand.1)

/-- Witness for C3: a second checkout of the fixture visit answers 404 and
leaves the state unchanged, as does a checkout of the unknown visit id 99. -/
theorem checkout_idempotent_witness :
    checkout wAuthAnn 1 400 wDb2 = (CheckoutRes.err 404, wDb2) ∧
    checkout wAuthAnn 99 400 wDb1 = (CheckoutRes.err 404, wDb1) :=
  ⟨checkout_idempotent.1 wAuthAnn 1 300 400 wDb1 wDb2 (by decide),
   checkout_idempotent.2 wAuthAnn 99 400 wDb1 rfl (by decide)⟩

/-- C5: the duplicate-visit check is scoped to the target host company: a
visitor with an active visit at one company checks in successfully with a host
of a different company (no active visit there), committing both inserts. -/
theorem checkIn_other_company_succeeds (auth : Auth) (b : CheckInBody) (now : Nat)
    (db : DB) (hid : Nat) (h0 : User) (c1 c2 : String) (w : Visit)
    (hval : (truthy b.name && truthy b.email && truthy b.hostName && truthy b.idCardNumber) = true)
    (hres : resolveHostId auth b.hostName db = Except.ok hid)
    (hu : findUserById db hid = some h0)
    (hco : h0.company_name = some c2)
    (hw : w ∈ db.visits)
    (hw1 : isActiveFor db b.email (some c1) w = true)
    (hne : c1 ≠ c2)
    (hnone : activeVisitExists db b.email (some c2) = false) :
    checkIn auth b now db =
      (CheckInRes.created db.nextVisitId, insertCheckIn db b hid now) :=
  checkIn_success_eq auth b now db hid h0 hval hres hu (by rw [hco]; exact hnone)

/-- Witness for C5: while Alice is active at Acme, her check-in addressed to
the Beta host succeeds. -/
theorem checkIn_other_company_succeeds_witness :
    checkIn wAuthCara wBodyCara 200 wDb1 =
      (CheckInRes.created wDb1.nextVisitId, insertCheckIn wDb1 wBodyCara 3 200) :=
  checkIn_other_company_succeeds wAuthCara wBodyCara 200 wDb1 3 wCara "Acme" "Beta"
    (mkVisit 1 1 2 wBody 100)
    (by decide) (by decide) (by decide) rfl (by decide) (by decide) (by decide) (by decide)

/-- C8: every successful check-in, in particular one whose submitted email
already appears on a stored visitor row, appends a brand-new Visitor row built
from the submitted fields, leaving the existing row untouched. -/
theorem checkIn_new_visitor_row (auth : Auth) (b : CheckInBody) (now : Nat)
    (db : DB) (hid : Nat) (h0 : User) (vis0 : Visitor)
    (hval : (truthy b.name && truthy b.email && truthy b.hostName && truthy b.idCardNumber) = true)
    (hres : resolveHostId auth b.hostName db = Except.ok hid)
    (hu : findUserById db hid = some h0)
    (hex : activeVisitExists db b.email h0.company_name = false)
    (hrep : vis0 ∈ db.visitors)
    (hrepe : vis0.email = b.email) :
    checkIn auth b now db =
      (CheckInRes.created db.nextVisitId, insertCheckIn db b hid now) ∧
    (insertCheckIn db b hid now).visitors =
      db.visitors ++ [mkVisitor db.nextVisitorId b] ∧
    mkVisitor db.nextVisitorId b =
      { id := db.nextVisitorId, name := b.name, email := b.email, phone := b.phone,
        designation := b.designation, company := b.company, companyTel := b.companyTel,
        website := b.website, address := b.address, photo := b.photo,
        idCardPhoto := b.idCardPhoto, idCardNumber := b.idCardNumber } :=
  ⟨checkIn_success_eq auth b now db hid h0 hval hres hu hex, rfl, rfl⟩

/-- Witness for C8: after Alice checked out of Acme, her second check-in (same
email already stored on the first visitor row) appends a second visitor row. -/
theorem checkIn_new_visitor_row_witness :
    checkIn wAuthAnn wBody 500 wDb2 =
      (CheckInRes.created wDb2.nextVisitId, insertCheckIn wDb2 wBody 2 500) ∧
    (insertCheckIn wDb2 wBody 2 500).visitors =
      wDb2.visitors ++ [mkVisitor wDb2.nextVisitorId wBody] ∧
    mkVisitor wDb2.nextVisitorId wBody =
      { id := wDb2.nextVisitorId, name := wBody.name, email := wBody.email,
        phone := wBody.phone, designation := wBody.designation, company := wBody.company,
        companyTel := wBody.companyTel, website := wBody.website, address := wBody.address,
        photo := wBody.photo, idCardPhoto := wBody.idCardPhoto,
        idCardNumber := wBody.idCardNumber } :=
  checkIn_new_visitor_row wAuthAnn wBody 500 wDb2 2 wBob (mkVisitor 1 wBody)
    (by decide) (by decide) (by decide) (by decide) (by decide) rfl

/-- C6: host resolution of the check-in handler: a host caller succeeds with
host_id equal to the caller id exactly when the submitted hostName equals the
caller name case-insensitively, and is rejected with 403 otherwise; an admin
caller resolves the hostName to the first stored role=host user with that name
in the admin company, and is rejected with 404 when there is none; any
resolution error is propagated by the handler with the state unchanged. -/
theorem checkIn_host_resolution :
    (∀ (auth : Auth) (hostName : String) (db : DB) (u : User),
      auth.role = "host" → findUserById db auth.id = some u →
      (lowerEqStr u.name hostName = true →
        resolveHostId auth hostName db = Except.ok auth.id) ∧
      (lowerEqStr u.name hostName = false →
        resolveHostId auth hostName db = Except.error 403)) ∧
    (∀ (auth : Auth) (hostName : String) (db : DB) (a : User),
      auth.role = "admin" → findUserById db auth.id = some a →
      truthyOpt a.company_name = true →
      (∀ h, (db.users.filter fun u => u.name == hostName && u.role == "host" &&
          sqlEqOpt u.company_name a.company_name).head? = some h →
        resolveHostId auth hostName db = Except.ok h.id) ∧
      ((db.users.filter fun u => u.name == hostName && u.role == "host" &&
          sqlEqOpt u.company_name a.company_name).head? = none →
        resolveHostId auth hostName db = Except.error 404)) ∧
    (∀ (auth : Auth) (b : CheckInBody) (now : Nat) (db : DB) (code : Nat),
      (truthy b.name && truthy b.email && truthy b.hostName && truthy b.idCardNumber) = true →
      resolveHostId auth b.hostName db = Except.error code →
      checkIn auth b now db = (CheckInRes.err code, db)) := by
  refine ⟨?_, ?_, ?_⟩
  · intro auth hostName db u hrole hu
    have h1 : (auth.role == "host") = true := by rw [hrole]; rfl
    constructor
    · intro hlow
      unfold resolveHostId
      rw [if_pos h1]
      simp only [hu, hlow]
      rfl
    · intro hlow
      unfold resolveHostId
      rw [if_pos h1]
      simp only [hu, hlow]
      rfl
  · intro auth hostName db a hrole ha htruthy
    have h1 : (auth.role == "host") = false := by rw [hrole]; rfl
    have h2 : (auth.role == "admin") = true := by rw [hrole]; rfl
    constructor
    · intro h hhead
      unfold resolveHostId
      rw [h1]
      simp only [Bool.false_eq_true, if_false]
      rw [if_pos h2]
      simp only [ha, htruthy, hhead]
      rfl
    · intro hhead
      unfold resolveHostId
      rw [h1]
      simp only [Bool.false_eq_true, if_false]
      rw [if_pos h2]
      simp only [ha, htruthy, hhead]
      rfl
  · intro auth b now db code hval hres
    unfold checkIn
    rw [hval]
    simp only [Bool.not_true, Bool.false_eq_true, if_false]
    simp only [hres]

/-- Witness for C6: Bob resolves himself case-insensitively, Cara is rejected
for Bob, the admin resolves Bob and fails on an unknown name, and a failed
resolution is propagated as the handler response. -/
theorem checkIn_host_resolution_witness :
    resolveHostId wAuthBob "BOB" wDb0 = Except.ok 2 ∧
    resolveHostId wAuthBob "Cara" wDb0 = Except.error 403 ∧
    resolveHostId wAuthAnn "Bob" wDb0 = Except.ok 2 ∧
    resolveHostId wAuthAnn "Nobody" wDb0 = Except.error 404 ∧
    checkIn wAuthAnn { wBody with hostName := "Nobody" } 100 wDb0 =
      (CheckInRes.err 404, wDb0) :=
  ⟨((checkIn_host_resolution.1 wAuthBob "BOB" wDb0 wBob rfl (by decide)).1 (by decide)),
   ((checkIn_host_resolution.1 wAuthBob "Cara" wDb0 wBob rfl (by decide)).2 (by decide)),
   ((checkIn_host_resolution.2.1 wAuthAnn "Bob" wDb0 wAnn rfl (by decide) (by decide)).1
      wBob (by decide)),
   ((checkIn_host_resolution.2.1 wAuthAnn "Nobody" wDb0 wAnn rfl (by decide) (by decide)).2
      (by decide)),
   (checkIn_host_resolution.2.2 wAuthAnn { wBody with hostName := "Nobody" } 100 wDb0 404
      (by decide) (by decide))⟩

/-- C10: after a correct email and password match, a user with role host is
issued a token (the handler succeeds) regardless of is_verified, while a user
of any other role with is_verified false is rejected with 403 and no token. -/
theorem login_host_skips_verification (email password : String) (db : DB) (u : User)
    (hfind : db.users.find? (fun x => x.email == email) = some u)
    (hpw : u.password = password) :
    (u.role = "host" → login email password db = LoginRes.ok u.id u.role) ∧
    (u.role ≠ "host" → u.is_verified = false → login email password db = LoginRes.err 403) := by
  unfold login
  simp only [hfind]
  have hpw2 : (u.password != password) = false := by simp [hpw]
  rw [hpw2]
  simp only [Bool.false_eq_true, if_false]
  constructor
  · intro hrole
    have h1 : (u.role != "host") = false := by simp [hrole]
    rw [h1]
    simp
  · intro hrole hver
    have h1 : (u.role != "host") = true := by simp [hrole]
    rw [h1, hver]
    simp

/-- Witness for C10: the unverified host Bob logs in, the unverified admin Dan
is rejected with 403. -/
theorem login_host_skips_verification_witness :
    login "bob@acme.com" "pw" wDb0 = LoginRes.ok 2 "host" ∧
    login "dan@gamma.com" "pw" wDb0 = LoginRes.err 403 := by
  constructor
  · have h := (login_host_skips_verification "bob@acme.com" "pw" wDb0 wBob
      (by decide) rfl).1 rfl
    exact h
  · have h := (login_host_skips_verification "dan@gamma.com" "pw" wDb0 wDan
      (by decide) rfl).2 (by decide) rfl
    exact h

/-- C7: the admin visit listing returns exactly the joined rows whose host
company equals the admin company further restricted conjunctively by the
supplied optional filters (adminRowPred), ordered by check_in_time descending;
the host listing returns exactly the joined rows with host_id equal to the
caller id, in the same order, with no filters. -/
theorem visits_query_characterization :
    (∀ (auth : Auth) (q : VisitQuery) (db : DB) (a : User) (c : String) (l : List JoinedRow),
      auth.role = "admin" → findUserById db auth.id = some a →
      a.company_name = some c →
      getVisits auth q db = Except.ok l →
      (∀ row, row ∈ l ↔
        ((∃ v ∈ db.visits, joinRow db v = some row) ∧ adminRowPred c q row = true)) ∧
      l.Pairwise visitDesc) ∧
    (∀ (auth : Auth) (db : DB) (l : List JoinedRow),
      auth.role = "host" →
      getHostVisits auth db = Except.ok l →
      (∀ row, row ∈ l ↔
        ((∃ v ∈ db.visits, joinRow db v = some row) ∧ (row.1.host_id == auth.id) = true)) ∧
      l.Pairwise visitDesc) := by
  constructor
  · intro auth q db a c l hrole ha hc hok
    unfold getVisits at hok
    have hr : (auth.role != "admin") = false := by simp [hrole]
    rw [hr] at hok
    simp only [Bool.false_eq_true, if_false] at hok
    simp only [ha] at hok
    by_cases ht : truthyOpt a.company_name = true
    · rw [ht] at hok
      simp only [Bool.not_true, Bool.false_eq_true, if_false] at hok
      have hl : l = ((db.visits.filterMap (joinRow db)).filter
          (adminRowPred (a.company_name.getD "") q)).insertionSort visitDesc :=
        (Except.ok.inj hok).symm
      rw [hc] at hl
      simp only [Option.getD_some] at hl
      constructor
      · intro row
        rw [hl, List.mem_insertionSort, List.mem_filter, List.mem_filterMap]
      · rw [hl]
        exact List.sorted_insertionSort visitDesc _
    · rw [Bool.eq_false_iff.mpr ht] at hok
      simp only [Bool.not_false, if_true] at hok
      exact Except.noConfusion hok
  · intro auth db l hrole hok
    unfold getHostVisits at hok
    have hr : (auth.role != "host") = false := by simp [hrole]
    rw [hr] at hok
    simp only [Bool.false_eq_true, if_false] at hok
    have hl : l = ((db.visits.filterMap (joinRow db)).filter
        (fun r => r.1.host_id == auth.id)).insertionSort visitDesc :=
      (Except.ok.inj hok).symm
    constructor
    · intro row
      rw [hl, List.mem_insertionSort, List.mem_filter, List.mem_filterMap]
    · rw [hl]
      exact List.sorted_insertionSort visitDesc _

/-- Witness for C7: on the fixture state with one visit, both listings are the
singleton of its joined row, in particular sorted. -/
theorem visits_query_characterization_witness :
    ([wRow].Pairwise visitDesc ∧ (wRow ∈ [wRow])) ∧
    ([wRow].Pairwise visitDesc ∧ (wRow ∈ [wRow])) :=
  by
    have hadmin := visits_query_characterization.1 wAuthAnn wQEmpty wDb1 wAnn "Acme" [wRow]
      rfl (by decide) rfl (by decide)
    have hhost := visits_query_characterization.2 wAuthBob wDb1 [wRow]
      rfl (by decide)
    exact ⟨⟨hadmin.2, (hadmin.1 wRow).mpr (by decide)⟩,
           ⟨hhost.2, (hhost.1 wRow).mpr (by decide)⟩⟩
